import Mathlib

/-!
Shallow embedding of the clap-adapters crate: composable argument adapters
that parse a CLI string into a loaded (and optionally auto-reloading) value.

Modelling conventions:
- Bytes are `List Nat` (each element a byte value).
- The `FromReader` trait is a record holding the decode function
  `from_reader : Bytes → Except String T`; reading a `BufReader` to
  completion is modelled by handing the decoder the full byte list.
- The filesystem is a snapshot `FS : String → Option Bytes`
  (`none` models `File::open` failing). Each separate load attempt may see
  a different snapshot, so traces are parameterised by lists of snapshots.
- `PathBuf::from(s)` is an infallible wrapper around the string, so paths
  are `String`s and the conversion is the identity.
- A tokio `watch` channel is its current value plus the list of values
  published with `send_replace`, in order.
- `anyhow::Error` is modelled by the explicit error kind `AdapterError`.
-/

namespace ClapAdapters

/-- Byte strings: each element is one byte value. -/
abbrev Bytes := List Nat

/-- Filesystem snapshot: maps a path to the bytes of the file at that path,
or `none` when opening the file fails. -/
abbrev FS := String → Option Bytes

/-- Error kinds surfaced by adapter construction (`anyhow::Error` in the
source, with the distinct failure kinds kept apart). -/
inductive AdapterError where
  | fileOpenFailed (path : String)
  | decodeFailed (msg : String)
  | urlParseFailed (s : String)
  | requestFailed (msg : String)
  | watchSetupFailed
deriving Repr, DecidableEq

/-- The `FromReader` trait of `traits.rs`: a type that can construct itself
from a buffered reader. The reader is modelled by the full byte list it
yields; errors are collapsed to their display string. -/
structure FromReader (T : Type) where
  from_reader : Bytes → Except String T

/-- The `PathTo` source adapter value of `fs.rs`: the user-supplied path
together with the data decoded from the file at that path. -/
structure PathTo (T : Type) where
  path : String
  data : T
deriving Repr, DecidableEq

/-- The shared load block: open the file at `path`, wrap it in a buffered
reader and run `T::from_reader` on it. This is `PathTo::from_str`'s body in
`fs.rs` and the closure `(|| -> anyhow::Result<T> { ... })()` that both
`reload.rs` and `periodic.rs` run on each reload attempt. -/
def loadAttempt (dec : FromReader T) (fs : FS) (path : String) :
    Except AdapterError T :=
  match fs path with
  | none => .error (.fileOpenFailed path)
  | some bytes =>
    match dec.from_reader bytes with
    | .error e => .error (.decodeFailed e)
    | .ok data => .ok data

/-- The `FromStr` impl for `PathTo<T>` in `fs.rs`: `PathBuf::from(s)` (the
identity on the string), then one load attempt; on success the located
value pairs the path with the decoded data. -/
def PathTo.from_str (dec : FromReader T) (fs : FS) (s : String) :
    Except AdapterError (PathTo T) :=
  match loadAttempt dec fs s with
  | .error e => .error e
  | .ok data => .ok { path := s, data := data }

/-- State of a tokio `watch` channel: the current value and the list of
values published via `send_replace`, oldest first. `get`, `receiver` and
`stream` on the adapters only ever observe the current value or published
values. -/
structure WatchChannel (T : Type) where
  current : T
  published : List T
deriving Repr, DecidableEq

/-- Creation of a `watch` channel seeded with an initial value
(`watch::channel(path_to.clone())`). Nothing is published yet. -/
def watchChannel (init : T) : WatchChannel T :=
  { current := init, published := [] }

/-- Publication via `watch::Sender::send_replace`: the current value is
replaced wholesale and the new value is appended to the publish order. -/
def WatchChannel.send_replace (ch : WatchChannel T) (v : T) : WatchChannel T :=
  { current := v, published := ch.published ++ [v] }

/-- The watcher callback body of `reload.rs` (the closure handed to
`notify::recommended_watcher`). A watcher-delivered error is logged at warn
level and does not stop the reload attempt, so `eventIsErr` does not affect
the behaviour. The callback re-runs the load block; on failure it logs at
error level and returns, leaving the channel untouched; on success it
builds the updated located value and publishes it. -/
def notifyCallback (dec : FromReader T) (path : String) (eventIsErr : Bool)
    (fs : FS) (ch : WatchChannel (PathTo T)) : WatchChannel (PathTo T) :=
  let _ := eventIsErr
  match loadAttempt dec fs path with
  | .error _ => ch
  | .ok data => ch.send_replace { path := path, data := data }

/-- The `FromStr` impl for `Reloading<PathTo<T>>` in `reload.rs`, as the
resulting channel state plus whether a filesystem watch was registered and
left running. The steps, in source order: run the inner path load (`?`
returns the error before any channel or watcher exists); create the
channel seeded with the loaded value; create the watcher
(`recommended_watcher`, fallible, abstracted by `watcherCreateOk`);
register the watch on the exact path (`watcher.watch`, fallible,
abstracted by `watchOk`). -/
def Reloading.from_str (dec : FromReader T) (fs : FS)
    (watcherCreateOk watchOk : Bool) (s : String) :
    Except AdapterError (WatchChannel (PathTo T)) × Bool :=
  match PathTo.from_str dec fs s with
  | .error e => (.error e, false)
  | .ok path_to =>
    if watcherCreateOk then
      if watchOk then (.ok (watchChannel path_to), true)
      else (.error .watchSetupFailed, false)
    else (.error .watchSetupFailed, false)

/-- The `get` method of `Reloading` in `reload.rs`:
`self.reload_rx.borrow().clone()`, i.e. the channel's current value. -/
def Reloading.get (ch : WatchChannel (PathTo T)) : PathTo T :=
  ch.current

/-- The `get` method of `Periodic` in `periodic.rs`, identical to
`Reloading::get`: the channel's current value. -/
def Periodic.get (ch : WatchChannel (PathTo T)) : PathTo T :=
  ch.current

/-- A run of the notify watcher: the callback fires once per delivered
event, each event carrying whether notify delivered an error and the
filesystem snapshot the load attempt sees. -/
def notifyRun (dec : FromReader T) (path : String)
    (events : List (Bool × FS)) (ch : WatchChannel (PathTo T)) :
    WatchChannel (PathTo T) :=
  events.foldl (fun ch ev => notifyCallback dec path ev.1 ev.2 ch) ch

/-- One iteration of the loop spawned by `Periodic::from_str` in
`periodic.rs`. The returned `Bool` records whether the iteration reached
the `tokio::time::sleep(P::PERIOD)` at the bottom of the loop: the `Err`
arm logs at error level and then `continue`s, skipping the sleep, while
the `Ok` arm publishes the updated located value with `send_replace` and
then sleeps. -/
def periodicLoopIter (dec : FromReader T) (path : String) (fs : FS)
    (ch : WatchChannel (PathTo T)) : WatchChannel (PathTo T) × Bool :=
  match loadAttempt dec fs path with
  | .error _ => (ch, false)
  | .ok data => (ch.send_replace { path := path, data := data }, true)

/-- A run of the periodic loop: one iteration per filesystem snapshot. -/
def periodicRun (dec : FromReader T) (path : String) (snaps : List FS)
    (ch : WatchChannel (PathTo T)) : WatchChannel (PathTo T) :=
  snaps.foldl (fun ch fs => (periodicLoopIter dec path fs ch).1) ch

/-- The `FromStr` impl for `Periodic<PathTo<T>, P>` in `periodic.rs`, as
the resulting channel state plus whether the background task was spawned.
Source order: run the inner path load (`?` returns the error before the
channel is created or `tokio::spawn` runs); create the channel seeded with
the loaded value; spawn the reload loop. -/
def Periodic.from_str (dec : FromReader T) (fs : FS) (s : String) :
    Except AdapterError (WatchChannel (PathTo T)) × Bool :=
  match PathTo.from_str dec fs s with
  | .error e => (.error e, false)
  | .ok path_to => (.ok (watchChannel path_to), true)

/-- Lifecycle state of a constructed `Periodic` value together with its
spawned task. `cloneCount` counts the live clones of the `Periodic` value
(each holding only a `watch::Receiver` plus `PhantomData`, the struct's
only fields; the struct has no `Drop` impl); `senderAlive` records that
`reload_tx` is owned by the spawned task's closure; `taskAlive` records
that the spawned loop is still running. -/
structure PeriodicSystem (T : Type) where
  ch : WatchChannel (PathTo T)
  cloneCount : Nat
  senderAlive : Bool
  taskAlive : Bool
deriving Repr, DecidableEq

/-- Events in the life of a `Periodic` value: a clone being dropped, or
the spawned task running one loop iteration against a filesystem
snapshot. -/
inductive PeriodicEvent where
  | dropClone
  | taskIter (fs : FS)

/-- State right after a successful `Periodic::from_str` returned one value
to the caller: channel seeded with the initial load, task spawned and
owning the sender. -/
def periodicSystemInit (pt : PathTo T) : PeriodicSystem T :=
  { ch := watchChannel pt, cloneCount := 1, senderAlive := true,
    taskAlive := true }

/-- Lifecycle transition. Dropping a clone only drops that clone's
receiver: the struct owns no watcher handle, no cancellation token and no
join handle, and has no `Drop` impl, so the task and the sender are
untouched. A task iteration runs the loop body of `periodic.rs`; the loop
has no `break` or `return`, so the task stays alive and keeps the
sender. -/
def periodicSystemStep (dec : FromReader T) (path : String) :
    PeriodicSystem T → PeriodicEvent → PeriodicSystem T
  | st, .dropClone => { st with cloneCount := st.cloneCount - 1 }
  | st, .taskIter fs =>
      { st with ch := (periodicLoopIter dec path fs st.ch).1 }

/-- Fold of lifecycle events from a state. -/
def periodicSystemRun (dec : FromReader T) (path : String)
    (evs : List PeriodicEvent) (st : PeriodicSystem T) : PeriodicSystem T :=
  evs.foldl (periodicSystemStep dec path) st

/-- Duration in whole seconds (`Duration::from_secs`). -/
abbrev Duration := Nat

/-- The `Time` impl for `Seconds<N>`: `Duration::from_secs(N)`. -/
def Seconds.PERIOD (N : Nat) : Duration := N

/-- The `Time` impl for `Minutes<N>`: `Duration::from_secs(60 * N)`. -/
def Minutes.PERIOD (N : Nat) : Duration := 60 * N

/-- The `Time` impl for `Hours<N>`: `Duration::from_secs(60 * 60 * N)`. -/
def Hours.PERIOD (N : Nat) : Duration := 60 * 60 * N

/-- Bytes of the UTF-8 encoding of the replacement character U+FFFD. -/
def replacementBytes : Bytes := [0xEF, 0xBF, 0xBD]

/-- Whether a byte is a UTF-8 continuation byte (0x80–0xBF). -/
def isCont (b : Nat) : Bool := 0x80 ≤ b && b ≤ 0xBF

/-- Whether a byte starts a two-byte UTF-8 sequence. -/
def isLead2 (b : Nat) : Bool := 0xC2 ≤ b && b ≤ 0xDF

/-- Whether a byte starts a three-byte UTF-8 sequence. -/
def isLead3 (b : Nat) : Bool := 0xE0 ≤ b && b ≤ 0xEF

/-- Whether a byte starts a four-byte UTF-8 sequence. -/
def isLead4 (b : Nat) : Bool := 0xF0 ≤ b && b ≤ 0xF4

/-- Valid range check for the first continuation byte after lead `b`:
0xE0 requires 0xA0–0xBF (no overlong), 0xED requires 0x80–0x9F (no
surrogates), 0xF0 requires 0x90–0xBF (no overlong), 0xF4 requires
0x80–0x8F (≤ U+10FFFF); all other leads take 0x80–0xBF. -/
def isCont1 (b c : Nat) : Bool :=
  (if b = 0xE0 then 0xA0 else if b = 0xF0 then 0x90 else 0x80) ≤ c &&
    c ≤ (if b = 0xED then 0x9F else if b = 0xF4 then 0x8F else 0xBF)

/-- Models `res.text()` in `http.rs` followed by re-reading the text's
bytes: reqwest decodes the body using the charset of the Content-Type
header, defaulting to UTF-8 with invalid sequences replaced by U+FFFD
(substitution of maximal subparts, as in the Rust standard library), and
`from_str` then hands the re-encoded text bytes to the inner reader via a
cursor. A valid UTF-8 body maps to itself. -/
def utf8Lossy : Bytes → Bytes
  | [] => []
  | b :: rest =>
    if b < 0x80 then b :: utf8Lossy rest
    else if isLead2 b then
      match rest with
      | [] => replacementBytes
      | c1 :: rest1 =>
        if isCont c1 then b :: c1 :: utf8Lossy rest1
        else replacementBytes ++ utf8Lossy (c1 :: rest1)
    else if isLead3 b then
      match rest with
      | [] => replacementBytes
      | c1 :: rest1 =>
        if isCont1 b c1 then
          match rest1 with
          | [] => replacementBytes
          | c2 :: rest2 =>
            if isCont c2 then b :: c1 :: c2 :: utf8Lossy rest2
            else replacementBytes ++ utf8Lossy (c2 :: rest2)
        else replacementBytes ++ utf8Lossy (c1 :: rest1)
    else if isLead4 b then
      match rest with
      | [] => replacementBytes
      | c1 :: rest1 =>
        if isCont1 b c1 then
          match rest1 with
          | [] => replacementBytes
          | c2 :: rest2 =>
            if isCont c2 then
              match rest2 with
              | [] => replacementBytes
              | c3 :: rest3 =>
                if isCont c3 then b :: c1 :: c2 :: c3 :: utf8Lossy rest3
                else replacementBytes ++ utf8Lossy (c3 :: rest3)
            else replacementBytes ++ utf8Lossy (c2 :: rest2)
        else replacementBytes ++ utf8Lossy (c1 :: rest1)
    else replacementBytes ++ utf8Lossy rest
termination_by l => l.length
decreasing_by all_goals (simp [List.length_cons]; try omega)

/-- Whether a byte list is valid UTF-8, mirroring the sequence structure
accepted without replacement by `utf8Lossy`. -/
def validUtf8 : Bytes → Bool
  | [] => true
  | b :: rest =>
    if b < 0x80 then validUtf8 rest
    else if isLead2 b then
      match rest with
      | [] => false
      | c1 :: rest1 => isCont c1 && validUtf8 rest1
    else if isLead3 b then
      match rest with
      | [] => false
      | c1 :: rest1 =>
        if isCont1 b c1 then
          match rest1 with
          | [] => false
          | c2 :: rest2 => isCont c2 && validUtf8 rest2
        else false
    else if isLead4 b then
      match rest with
      | [] => false
      | c1 :: rest1 =>
        if isCont1 b c1 then
          match rest1 with
          | [] => false
          | c2 :: rest2 =>
            if isCont c2 then
              match rest2 with
              | [] => false
              | c3 :: rest3 => isCont c3 && validUtf8 rest3
            else false
        else false
    else false

/-- An HTTP response as seen through the blocking reqwest client: a status
code and the raw body bytes. -/
structure HttpResponse where
  status : Nat
  body : Bytes
deriving Repr, DecidableEq

/-- The network, abstracted: maps a URL to the response of a blocking GET,
or `none` when `send()` itself fails (connection, TLS, redirect loop,
...). reqwest does not turn a non-2xx status into an `Err` of `send()`:
any delivered response arrives as `some`. -/
abbrev Http := String → Option HttpResponse

/-- URL parsing by the url crate, abstracted: `none` when `Url::parse`
fails, otherwise the normalised URL. -/
abbrev UrlParse := String → Option String

/-- The `HttpGet` source adapter value of `http.rs`: the request URL and
the decoded data. -/
structure HttpGet (T : Type) where
  url : String
  data : T
deriving Repr, DecidableEq

/-- The `FromStr` impl for `HttpGet<T>` in `http.rs`, in source order:
parse the URL (`?`); send a blocking GET with the crate-name user-agent
header (`?` on send failure); call `res.text()` — which decodes the body
as text and never inspects `res.status()`; wrap the text in a cursor and
run `T::from_reader` on it; on success pair the URL with the data. -/
def HttpGet.from_str (dec : FromReader T) (parse_url : UrlParse)
    (http : Http) (s : String) : Except AdapterError (HttpGet T) :=
  match parse_url s with
  | none => .error (.urlParseFailed s)
  | some url =>
    match http url with
    | none => .error (.requestFailed url)
    | some res =>
      match dec.from_reader (utf8Lossy res.body) with
      | .error e => .error (.decodeFailed e)
      | .ok data => .ok { url := url, data := data }

/-- Modelled from the spec (section 4.4): "read the full response body;
hand the body bytes to the inner reader-loadable" — the raw body bytes
reach the reader with no text decoding step. Declared only to compare the
code's behaviour against the spec's words. -/
def HttpGet.from_str_rawBody (dec : FromReader T) (parse_url : UrlParse)
    (http : Http) (s : String) : Except AdapterError (HttpGet T) :=
  match parse_url s with
  | none => .error (.urlParseFailed s)
  | some url =>
    match http url with
    | none => .error (.requestFailed url)
    | some res =>
      match dec.from_reader res.body with
      | .error e => .error (.decodeFailed e)
      | .ok data => .ok { url := url, data := data }

/-- A located value is a successful decode for `dec` at `path`: its
location is the watched path and its data is the output of some
successful `from_reader` run. -/
def SuccessfulDecode (dec : FromReader T) (path : String) (v : PathTo T) :
    Prop :=
  v.path = path ∧ ∃ bytes, dec.from_reader bytes = .ok v.data

/-- Channel invariant: the current value and every published value is a
successful decode. -/
def ChannelOk (dec : FromReader T) (path : String)
    (ch : WatchChannel (PathTo T)) : Prop :=
  SuccessfulDecode dec path ch.current ∧
    ∀ v ∈ ch.published, SuccessfulDecode dec path v

/-- The `FromReader` impl for `Vec<u8>` in `traits.rs`: `read_to_end` into
a buffer, returning every byte of the stream; it only fails on I/O errors,
which the byte-list model does not produce. -/
def bytesFromReader : FromReader Bytes :=
  { from_reader := fun b => .ok b }

/-- Filesystem snapshot holding a single file at path `p` with bytes `b`. -/
def fsWith (p : String) (b : Bytes) : FS :=
  fun q => if q = p then some b else none

/-- Filesystem snapshot where every open fails. -/
def fsEmpty : FS := fun _ => none

end ClapAdapters

namespace ClapAdapters

theorem loadAttempt_ok_successfulDecode (dec : FromReader T) (fs : FS)
    (path : String) (data : T) (h : loadAttempt dec fs path = .ok data) :
    SuccessfulDecode dec path { path := path, data := data } := by
  unfold loadAttempt at h
  constructor
  · rfl
  · cases hfs : fs path with
    | none => simp [hfs] at h
    | some bytes =>
      cases hdec : dec.from_reader bytes with
      | error e => simp [hfs, hdec] at h
      | ok d =>
        simp [hfs, hdec] at h
        exact ⟨bytes, by rw [hdec, h]⟩

theorem send_replace_channelOk (dec : FromReader T) (path : String)
    (ch : WatchChannel (PathTo T)) (v : PathTo T)
    (hch : ChannelOk dec path ch) (hv : SuccessfulDecode dec path v) :
    ChannelOk dec path (ch.send_replace v) := by
  obtain ⟨hcur, hpub⟩ := hch
  refine ⟨hv, ?_⟩
  intro w hw
  simp [WatchChannel.send_replace] at hw
  rcases hw with hw | hw
  · exact hpub w hw
  · exact hw ▸ hv

theorem notifyCallback_channelOk (dec : FromReader T) (path : String)
    (eventIsErr : Bool) (fs : FS) (ch : WatchChannel (PathTo T))
    (hch : ChannelOk dec path ch) :
    ChannelOk dec path (notifyCallback dec path eventIsErr fs ch) := by
  unfold notifyCallback
  cases hload : loadAttempt dec fs path with
  | error e => simpa [hload] using hch
  | ok data =>
    simp only [hload]
    exact send_replace_channelOk dec path ch _ hch
      (loadAttempt_ok_successfulDecode dec fs path data hload)

theorem periodicLoopIter_channelOk (dec : FromReader T) (path : String)
    (fs : FS) (ch : WatchChannel (PathTo T)) (hch : ChannelOk dec path ch) :
    ChannelOk dec path (periodicLoopIter dec path fs ch).1 := by
  unfold periodicLoopIter
  cases hload : loadAttempt dec fs path with
  | error e => simpa [hload] using hch
  | ok data =>
    simp only [hload]
    exact send_replace_channelOk dec path ch _ hch
      (loadAttempt_ok_successfulDecode dec fs path data hload)

theorem notifyRun_channelOk (dec : FromReader T) (path : String)
    (events : List (Bool × FS)) (ch : WatchChannel (PathTo T))
    (hch : ChannelOk dec path ch) :
    ChannelOk dec path (notifyRun dec path events ch) := by
  induction events generalizing ch with
  | nil => simpa [notifyRun] using hch
  | cons ev rest ih =>
    simp only [notifyRun, List.foldl_cons]
    exact ih _ (notifyCallback_channelOk dec path ev.1 ev.2 ch hch)

theorem periodicRun_channelOk (dec : FromReader T) (path : String)
    (snaps : List FS) (ch : WatchChannel (PathTo T))
    (hch : ChannelOk dec path ch) :
    ChannelOk dec path (periodicRun dec path snaps ch) := by
  induction snaps generalizing ch with
  | nil => simpa [periodicRun] using hch
  | cons fs rest ih =>
    simp only [periodicRun, List.foldl_cons]
    exact ih _ (periodicLoopIter_channelOk dec path fs ch hch)

theorem pathTo_from_str_ok (dec : FromReader T) (fs : FS) (s : String)
    (v : PathTo T) (h : PathTo.from_str dec fs s = .ok v) :
    loadAttempt dec fs s = .ok v.data ∧ v.path = s := by
  unfold PathTo.from_str at h
  cases hload : loadAttempt dec fs s with
  | error e => simp [hload] at h
  | ok data =>
    simp [hload] at h
    exact ⟨by rw [← h], by rw [← h]⟩

theorem reloading_from_str_ok (dec : FromReader T) (fs : FS)
    (wc wo : Bool) (s : String) (ch : WatchChannel (PathTo T))
    (h : (Reloading.from_str dec fs wc wo s).1 = .ok ch) :
    ∃ pt, PathTo.from_str dec fs s = .ok pt ∧ ch = watchChannel pt := by
  unfold Reloading.from_str at h
  cases hpt : PathTo.from_str dec fs s with
  | error e => simp [hpt] at h
  | ok pt =>
    refine ⟨pt, rfl, ?_⟩
    rw [hpt] at h
    cases wc <;> cases wo <;> simp_all

theorem periodic_from_str_ok (dec : FromReader T) (fs : FS) (s : String)
    (ch : WatchChannel (PathTo T))
    (h : (Periodic.from_str dec fs s).1 = .ok ch) :
    ∃ pt, PathTo.from_str dec fs s = .ok pt ∧ ch = watchChannel pt := by
  unfold Periodic.from_str at h
  cases hpt : PathTo.from_str dec fs s with
  | error e => simp [hpt] at h
  | ok pt => exact ⟨pt, rfl, by simp [hpt] at h; exact h.symm⟩

theorem seed_channelOk (dec : FromReader T) (fs : FS) (s : String)
    (pt : PathTo T) (h : PathTo.from_str dec fs s = .ok pt) :
    ChannelOk dec s (watchChannel pt) := by
  obtain ⟨hload, hpath⟩ := pathTo_from_str_ok dec fs s pt h
  have hsd : SuccessfulDecode dec s { path := s, data := pt.data } :=
    loadAttempt_ok_successfulDecode dec fs s pt.data hload
  constructor
  · cases pt with
    | mk p d => exact hpath ▸ hsd
  · intro v hv
    simp [watchChannel] at hv

theorem utf8Lossy_of_valid (l : Bytes) (h : validUtf8 l = true) :
    utf8Lossy l = l := by
  induction l using utf8Lossy.induct <;>
    (conv_lhs => rw [utf8Lossy.eq_def]) <;>
    (rw [validUtf8.eq_def] at h;
     try simp only [] at h ⊢;
     try split_ifs at h ⊢) <;>
    first | rfl | omega | simp_all

/-- C1: on either reload adapter, a failed re-open or re-decode publishes
nothing and leaves the channel untouched, and consequently after any
sequence of reload attempts following a successful construction, the
current value and every published value (everything observable via `get`,
a receiver or a stream) is a successful decode. -/
theorem reload_monotone_validity (dec : FromReader T) (fs fsx : FS)
    (wc wo b : Bool) (s : String) (e : AdapterError)
    (ch ch' cha : WatchChannel (PathTo T))
    (events : List (Bool × FS)) (snaps : List FS) :
    (loadAttempt dec fsx s = .error e →
       notifyCallback dec s b fsx cha = cha ∧
       periodicLoopIter dec s fsx cha = (cha, false)) ∧
    ((Reloading.from_str dec fs wc wo s).1 = .ok ch →
       ChannelOk dec s (notifyRun dec s events ch)) ∧
    ((Periodic.from_str dec fs s).1 = .ok ch' →
       ChannelOk dec s (periodicRun dec s snaps ch')) := by
  refine ⟨?_, ?_, ?_⟩
  · intro herr
    exact ⟨by simp [notifyCallback, herr], by simp [periodicLoopIter, herr]⟩
  · intro hr
    obtain ⟨pt, hpt, hch⟩ := reloading_from_str_ok dec fs wc wo s ch hr
    exact notifyRun_channelOk dec s events ch
      (hch ▸ seed_channelOk dec fs s pt hpt)
  · intro hp
    obtain ⟨pt, hpt, hch⟩ := periodic_from_str_ok dec fs s ch' hp
    exact periodicRun_channelOk dec s snaps ch'
      (hch ▸ seed_channelOk dec fs s pt hpt)

/-- Witness for C1 at a concrete decoder, filesystem and trace. -/
theorem reload_monotone_validity_witness :
    ChannelOk bytesFromReader "a"
      (notifyRun bytesFromReader "a" [(false, fsEmpty), (true, fsWith "a" [7])]
        (watchChannel ⟨"a", [1]⟩)) :=
  (reload_monotone_validity bytesFromReader (fsWith "a" [1]) fsEmpty
      true true false "a" (.fileOpenFailed "a")
      (watchChannel ⟨"a", [1]⟩) (watchChannel ⟨"a", [1]⟩)
      (watchChannel ⟨"a", [1]⟩)
      [(false, fsEmpty), (true, fsWith "a" [7])] []).2.1 (by
    simp [Reloading.from_str, PathTo.from_str, loadAttempt, fsWith,
      bytesFromReader])

/-- C3 failing-input evaluation: when the load attempt of a timer-loop
iteration fails (here: the file cannot be opened), the `Err` arm of the
loop body logs and `continue`s, so the iteration neither publishes nor
reaches the `sleep(P::PERIOD)` at the bottom of the loop (the returned
flag is `false`): the task retries immediately rather than waiting one
period as the spec requires. -/
theorem periodic_failed_load_skips_sleep :
    periodicLoopIter bytesFromReader "a" fsEmpty (watchChannel ⟨"a", [0]⟩) =
      (watchChannel ⟨"a", [0]⟩, false) := by
  simp [periodicLoopIter, loadAttempt, fsEmpty]

/-- C5: for either reload adapter, `get` immediately after a successful
construction returns the located value produced by one direct load of the
same source. -/
theorem initial_get_eq_direct_load (dec : FromReader T) (fs : FS)
    (wc wo : Bool) (s : String) (ch ch' : WatchChannel (PathTo T)) :
    ((Reloading.from_str dec fs wc wo s).1 = .ok ch →
       PathTo.from_str dec fs s = .ok (Reloading.get ch)) ∧
    ((Periodic.from_str dec fs s).1 = .ok ch' →
       PathTo.from_str dec fs s = .ok (Periodic.get ch')) := by
  constructor
  · intro hr
    obtain ⟨pt, hpt, hch⟩ := reloading_from_str_ok dec fs wc wo s ch hr
    simpa [Reloading.get, hch, watchChannel] using hpt
  · intro hp
    obtain ⟨pt, hpt, hch⟩ := periodic_from_str_ok dec fs s ch' hp
    simpa [Periodic.get, hch, watchChannel] using hpt

/-- Witness for C5 at a concrete decoder and filesystem. -/
theorem initial_get_eq_direct_load_witness :
    PathTo.from_str bytesFromReader (fsWith "a" [1, 2]) "a" =
      .ok (Reloading.get (watchChannel ⟨"a", [1, 2]⟩)) :=
  (initial_get_eq_direct_load bytesFromReader (fsWith "a" [1, 2]) true true
      "a" (watchChannel ⟨"a", [1, 2]⟩) (watchChannel ⟨"a", [1, 2]⟩)).1 (by
    simp [Reloading.from_str, PathTo.from_str, loadAttempt, fsWith,
      bytesFromReader])

/-- C6: a failed initial load makes construction of either reload adapter
return that error with no watch registered and no task spawned; after a
successful construction the current cell holds the loaded value. -/
theorem construction_fails_fast_or_seeds (dec : FromReader T) (fs : FS)
    (wc wo : Bool) (s : String) (e : AdapterError)
    (ch ch' : WatchChannel (PathTo T)) :
    (PathTo.from_str dec fs s = .error e →
       Reloading.from_str dec fs wc wo s = (.error e, false) ∧
       Periodic.from_str dec fs s = (.error e, false)) ∧
    ((Reloading.from_str dec fs wc wo s).1 = .ok ch →
       ∃ pt, PathTo.from_str dec fs s = .ok pt ∧ ch.current = pt) ∧
    ((Periodic.from_str dec fs s).1 = .ok ch' →
       ∃ pt, PathTo.from_str dec fs s = .ok pt ∧ ch'.current = pt) := by
  refine ⟨?_, ?_, ?_⟩
  · intro herr
    exact ⟨by simp [Reloading.from_str, herr],
      by simp [Periodic.from_str, herr]⟩
  · intro hr
    obtain ⟨pt, hpt, hch⟩ := reloading_from_str_ok dec fs wc wo s ch hr
    exact ⟨pt, hpt, by simp [hch, watchChannel]⟩
  · intro hp
    obtain ⟨pt, hpt, hch⟩ := periodic_from_str_ok dec fs s ch' hp
    exact ⟨pt, hpt, by simp [hch, watchChannel]⟩

/-- Witness for C6 at a concrete failing filesystem. -/
theorem construction_fails_fast_or_seeds_witness :
    Reloading.from_str bytesFromReader fsEmpty true true "a" =
        (.error (.fileOpenFailed "a"), false) ∧
      Periodic.from_str bytesFromReader fsEmpty "a" =
        (.error (.fileOpenFailed "a"), false) :=
  (construction_fails_fast_or_seeds bytesFromReader fsEmpty true true "a"
      (.fileOpenFailed "a") (watchChannel ⟨"a", []⟩)
      (watchChannel ⟨"a", []⟩)).1 (by
    simp [PathTo.from_str, loadAttempt, fsEmpty])

/-- C7: whenever the path source adapter succeeds on input `s`, the located
value's path field is exactly the path parsed from `s` (PathBuf::from is
the identity wrapper in the model). -/
theorem pathTo_location_eq_input (dec : FromReader T) (fs : FS) (s : String)
    (v : PathTo T) (h : PathTo.from_str dec fs s = .ok v) : v.path = s :=
  (pathTo_from_str_ok dec fs s v h).2

/-- Witness for C7 at a concrete decoder and filesystem. -/
theorem pathTo_location_eq_input_witness :
    (PathTo.mk "a" [1, 2] : PathTo Bytes).path = "a" :=
  pathTo_location_eq_input bytesFromReader (fsWith "a" [1, 2]) "a"
    (PathTo.mk "a" [1, 2]) (by
      simp [PathTo.from_str, loadAttempt, fsWith, bytesFromReader])

/-- C9 counterexample: `Seconds<0>` is a legal marker instantiation (the
code places no lower bound on `N`), and its period is the zero duration,
which is not positive. -/
theorem seconds_zero_period_not_positive :
    Seconds.PERIOD 0 = 0 ∧ ¬ 0 < Seconds.PERIOD 0 := by
  simp [Seconds.PERIOD]

/-- C9 amended: the markers resolve to `N`, `60·N` and `3600·N` seconds,
and the durations are positive whenever `N` is positive (the code does not
exclude `N = 0`, for which the duration is zero). -/
theorem period_markers_resolve (N : Nat) (h : 0 < N) :
    Seconds.PERIOD N = N ∧ Minutes.PERIOD N = 60 * N ∧
      Hours.PERIOD N = 3600 * N ∧ 0 < Seconds.PERIOD N ∧
      0 < Minutes.PERIOD N ∧ 0 < Hours.PERIOD N := by
  unfold Seconds.PERIOD Minutes.PERIOD Hours.PERIOD
  exact ⟨rfl, rfl, by ring, h, Nat.mul_pos (by norm_num) h,
    Nat.mul_pos (by norm_num) h⟩

/-- Witness for the amended C9 at `N = 1`. -/
theorem period_markers_resolve_witness :
    Seconds.PERIOD 1 = 1 ∧ Minutes.PERIOD 1 = 60 * 1 ∧
      Hours.PERIOD 1 = 3600 * 1 ∧ 0 < Seconds.PERIOD 1 ∧
      0 < Minutes.PERIOD 1 ∧ 0 < Hours.PERIOD 1 :=
  period_markers_resolve 1 (by decide)

/-- C10: a successful `Periodic` construction loads the file once
synchronously (snapshot `fs0`) to seed the channel and spawns the task,
and the task's first iteration loads a second time (snapshot `fs1`),
publishes that second value and only then reaches its first sleep (flag
`true`), so the file is opened and decoded twice before the first period
elapses. -/
theorem periodic_double_initial_load (dec : FromReader T) (fs0 fs1 : FS)
    (s : String) (pt0 : PathTo T) (d1 : T)
    (h0 : PathTo.from_str dec fs0 s = .ok pt0)
    (h1 : loadAttempt dec fs1 s = .ok d1) :
    Periodic.from_str dec fs0 s = (.ok (watchChannel pt0), true) ∧
    periodicLoopIter dec s fs1 (watchChannel pt0) =
      ({ current := ⟨s, d1⟩, published := [⟨s, d1⟩] }, true) := by
  constructor
  · simp [Periodic.from_str, h0]
  · simp [periodicLoopIter, h1, watchChannel, WatchChannel.send_replace]

/-- C2 refutation on the timer adapter: no sequence of lifecycle events —
in particular dropping every clone — ever changes `senderAlive` or
`taskAlive` (`Periodic` owns no watcher handle, cancellation token or join
handle and has no `Drop` impl, and the spawned loop never exits), and
concretely, after the only clone of a freshly constructed value is
dropped, the task's next wake still runs a full iteration and still
publishes, with the sender still owned — so the channel never closes and
previously obtained streams never terminate, contrary to the claim and to
the struct's own must_use note. -/
theorem periodic_drop_does_not_cancel :
    (∀ (T : Type) (dec : FromReader T) (path : String)
        (evs : List PeriodicEvent) (st : PeriodicSystem T),
       (periodicSystemRun dec path evs st).senderAlive = st.senderAlive ∧
       (periodicSystemRun dec path evs st).taskAlive = st.taskAlive) ∧
    periodicSystemRun bytesFromReader "a"
        [.dropClone, .taskIter (fsWith "a" [7])]
        (periodicSystemInit ⟨"a", [1]⟩) =
      { ch := { current := ⟨"a", [7]⟩, published := [⟨"a", [7]⟩] },
        cloneCount := 0, senderAlive := true, taskAlive := true } := by
  constructor
  · intro T dec path evs st
    induction evs generalizing st with
    | nil => exact ⟨rfl, rfl⟩
    | cons ev rest ih =>
      have h := ih (periodicSystemStep dec path st ev)
      cases ev <;>
        simpa [periodicSystemRun, periodicSystemStep, List.foldl_cons]
          using h
  · simp [periodicSystemRun, periodicSystemStep, periodicSystemInit,
      periodicLoopIter, loadAttempt, fsWith, bytesFromReader, watchChannel,
      WatchChannel.send_replace]

/-- C4 counterexample: a GET returning status 500 with a decodable body
parses successfully instead of failing with a request error carrying the
status code: `from_str` never inspects `res.status()` and decodes the
error body like any other. -/
theorem http_500_decodes_body :
    HttpGet.from_str bytesFromReader (fun s => some s)
        (fun _ => some { status := 500, body := [0x61] }) "u" =
      .ok { url := "u", data := [0x61] } := by
  simp [HttpGet.from_str, utf8Lossy, bytesFromReader]

/-- C4 amended: the response status is never examined — `HttpGet::from_str`
returns the identical result for any two statuses paired with the same
body, so a non-2xx response proceeds to body decoding exactly like a 2xx
one and never produces a request-failed error mentioning the status. -/
theorem http_status_ignored (dec : FromReader T) (pu : UrlParse)
    (s : String) (st1 st2 : Nat) (b : Bytes) :
    HttpGet.from_str dec pu (fun _ => some { status := st1, body := b }) s =
      HttpGet.from_str dec pu
        (fun _ => some { status := st2, body := b }) s := by
  unfold HttpGet.from_str
  cases pu s <;> rfl

/-- C8 counterexample: a response body that is not valid UTF-8 is not
handed to the reader as-is: with the raw byte-vector reader, the
single-byte body 0xFF arrives as the replacement-character bytes
EF BF BD, because `res.text()` lossily decodes the body to text before
the reader runs. -/
theorem http_body_not_raw :
    HttpGet.from_str bytesFromReader (fun s => some s)
        (fun _ => some { status := 200, body := [0xFF] }) "u" =
        .ok { url := "u", data := [0xEF, 0xBF, 0xBD] } ∧
      ([0xEF, 0xBF, 0xBD] : Bytes) ≠ [0xFF] := by
  constructor
  · simp [HttpGet.from_str, utf8Lossy, replacementBytes, isLead2, isLead3,
      isLead4, bytesFromReader]
  · simp

/-- C8 amended: the inner reader receives the UTF-8-lossy re-encoding of
the body, which coincides with the raw body bytes exactly when the body is
valid UTF-8; whenever every delivered body is valid UTF-8, the adapter
agrees with the spec's raw-body contract for every inner reader. -/
theorem http_body_raw_on_valid_utf8 (dec : FromReader T) (pu : UrlParse)
    (http : Http) (s : String)
    (hvalid : ∀ url res, http url = some res → validUtf8 res.body = true) :
    HttpGet.from_str dec pu http s =
      HttpGet.from_str_rawBody dec pu http s := by
  unfold HttpGet.from_str HttpGet.from_str_rawBody
  cases hpu : pu s with
  | none => rfl
  | some url =>
    cases hh : http url with
    | none => simp [hh]
    | some res =>
      simp [hh, utf8Lossy_of_valid res.body (hvalid url res hh)]

/-- Witness for the amended C8 at a concrete all-ASCII body. -/
theorem http_body_raw_on_valid_utf8_witness :
    HttpGet.from_str bytesFromReader (fun s => some s)
        (fun _ => some { status := 200, body := [0x61] }) "u" =
      HttpGet.from_str_rawBody bytesFromReader (fun s => some s)
        (fun _ => some { status := 200, body := [0x61] }) "u" :=
  http_body_raw_on_valid_utf8 bytesFromReader (fun s => some s)
    (fun _ => some { status := 200, body := [0x61] }) "u"
    (fun url res h => by
      injection h with h2
      subst h2
      decide)

/-- Witness for C10 at a concrete decoder and two snapshots. -/
theorem periodic_double_initial_load_witness :
    Periodic.from_str bytesFromReader (fsWith "a" [1]) "a" =
        (.ok (watchChannel ⟨"a", [1]⟩), true) ∧
      periodicLoopIter bytesFromReader "a" (fsWith "a" [2])
          (watchChannel ⟨"a", [1]⟩) =
        ({ current := ⟨"a", [2]⟩, published := [⟨"a", [2]⟩] }, true) :=
  periodic_double_initial_load bytesFromReader (fsWith "a" [1])
    (fsWith "a" [2]) "a" ⟨"a", [1]⟩ [2]
    (by simp [PathTo.from_str, loadAttempt, fsWith, bytesFromReader])
    (by simp [loadAttempt, fsWith, bytesFromReader])

end ClapAdapters
